import Mathlib

/-!
Verification of the membership-function evaluators of the
Membership-function-visualization repository (src/membership_functions.py).

The shallow embedding works over an arbitrary linear ordered field `K`
(instantiated at `ℚ` for executable witnesses).  Python method bodies are
chains of guarded `return` statements with an implicit `return None`
fall-through, so every `calculate_y` is embedded as an `Option K`-valued
if-chain in the exact guard order of the source; `none` is the fall-through.
Construction and the `y_min`/`y_max` property setters raise `ValueError`
on out-of-range values, embedded as `Option`-valued operations; the setter
embedding also returns the (possibly unchanged) instance state, mirroring
that the Python `raise` happens before the field assignment.
-/

namespace MembershipFunctions

variable {K : Type} [LinearOrderedField K]

/-- The attribute state of a `MembershipFunction` instance:
fields `a`, `b` and the validated backing fields `_y_min`, `_y_max`. -/
structure MFState (K : Type) where
  a : K
  b : K
  y_min : K
  y_max : K
deriving DecidableEq, Repr

/-- The `y_min` property setter: raises (`none`) when `val < 0 or val >= 1`,
otherwise stores `val`.  Returns the outcome together with the resulting
instance state; on failure the `raise` precedes the assignment, so the
state is returned untouched. -/
def setYmin (st : MFState K) (val : K) : Option Unit × MFState K :=
  if val < 0 ∨ val ≥ 1 then (none, st)
  else (some (), { st with y_min := val })

/-- The `y_max` property setter: raises (`none`) when `val > 1 or val <= 0`,
otherwise stores `val`. -/
def setYmax (st : MFState K) (val : K) : Option Unit × MFState K :=
  if val > 1 ∨ val ≤ 0 then (none, st)
  else (some (), { st with y_max := val })

/-- `MembershipFunction.__init__`: assigns `a` and `b`, then `y_min` and
`y_max` through their validating setters.  A setter failure aborts
construction (`none`); no ordering check on `a`, `b` is performed. -/
def mkMembershipFunction (a b ymin ymax : K) : Option (MFState K) :=
  if ymin < 0 ∨ ymin ≥ 1 then none
  else if ymax > 1 ∨ ymax ≤ 0 then none
  else some ⟨a, b, ymin, ymax⟩

/-- `Linear.__init__` just delegates to the base initializer. -/
def mkLinear (a b ymin ymax : K) : Option (MFState K) :=
  mkMembershipFunction a b ymin ymax

/-- `S.__init__` (inherited) just delegates to the base initializer. -/
def mkS (a b ymin ymax : K) : Option (MFState K) :=
  mkMembershipFunction a b ymin ymax

/-- `Z.__init__` just delegates to the base initializer. -/
def mkZ (a b ymin ymax : K) : Option (MFState K) :=
  mkMembershipFunction a b ymin ymax

/-- `Triangle.__init__`: base initializer, then stores `m` (unvalidated). -/
def mkTriangle (a m b ymin ymax : K) : Option (MFState K × K) :=
  (mkMembershipFunction a b ymin ymax).map (fun st => (st, m))

/-- `Pi.__init__`: base initializer, then stores `m` (unvalidated). -/
def mkPi (a m b ymin ymax : K) : Option (MFState K × K) :=
  (mkMembershipFunction a b ymin ymax).map (fun st => (st, m))

/-- `Trapezoidal.__init__`: base initializer, then stores `m1`, `m2`
(unvalidated). -/
def mkTrapezoidal (a m1 m2 b ymin ymax : K) : Option (MFState K × K × K) :=
  (mkMembershipFunction a b ymin ymax).map (fun st => (st, m1, m2))

/-- `Linear.calculate_y`. -/
def Linear_calculate_y (a b ymin ymax x : K) : Option K :=
  if x ≤ a then some ymin
  else if x ≥ b then some ymax
  else if a < x ∧ x < b then
    some (ymin + ((ymax - ymin) / (b - a)) * (x - a))
  else none

/-- `Triangle.calculate_y`. -/
def Triangle_calculate_y (a m b ymin ymax x : K) : Option K :=
  if x ≤ a ∨ x ≥ b then some ymin
  else if a < x ∧ x < m then
    some (ymin + (ymax - ymin) / (m - a) * (x - a))
  else if m ≤ x ∧ x < b then
    some (ymax - (ymax - ymin) / (b - m) * (x - m))
  else none

/-- `Trapezoidal.calculate_y`. -/
def Trapezoidal_calculate_y (a m1 m2 b ymin ymax x : K) : Option K :=
  if x ≤ a ∨ x ≥ b then some ymin
  else if m1 < x ∧ x < m2 then some ymax
  else if a < x ∧ x ≤ m1 then
    some (ymin + ((ymax - ymin) / (m1 - a)) * (x - a))
  else if m2 ≤ x ∧ x < b then
    some (ymax - ((ymax - ymin) / (b - m2)) * (x - m2))
  else none

/-- `S.calculate_y`. -/
def S_calculate_y (a b ymin ymax x : K) : Option K :=
  if x ≤ a then some ymin
  else if x > b then some ymax
  else if a < x ∧ x ≤ (a + b) / 2 then
    some (ymin + 2 * ((x - a) / (b - a)) ^ 2 * (ymax - ymin))
  else if (a + b) / 2 < x ∧ x ≤ b then
    some (ymin + (1 - 2 * ((b - x) / (b - a)) ^ 2) * (ymax - ymin))
  else none

/-- `Z.calculate_y`: `y_max + y_min - S(a, b, y_min, y_max).calculate_y(x)`,
delegating to an internally constructed `S` over the same parameters. -/
def Z_calculate_y (a b ymin ymax x : K) : Option K :=
  (S_calculate_y a b ymin ymax x).map (fun s => ymax + ymin - s)

/-- `Pi.calculate_y`: delegates to `S(a, m)` for `x <= m` and to `Z(m, b)`
otherwise. -/
def Pi_calculate_y (a m b ymin ymax x : K) : Option K :=
  if x ≤ m then S_calculate_y a m ymin ymax x
  else Z_calculate_y m b ymin ymax x

/-!
The formula-derivation feature (`get_function_def`) extracts, from the
source of `calculate_y`, the ordered list of `(if-guard, return-expression)`
pairs and substitutes the instance's parameter values (`get_if_statements`,
`get_return_statements`, `insert_vars`).  Each shape's derived branch list
is embedded below as structured data; a guard is a boolean predicate on `x`
and an expression a function of `x`, with the parameter values already
substituted.  `evalBranches` selects the first branch whose guard holds,
mirroring numeric evaluation of the derived piecewise formula. -/

/-- Evaluate a derived branch list at `x`: the first branch whose guard is
satisfied fires, `none` if no guard holds. -/
def evalBranches : List ((K → Bool) × (K → K)) → K → Option K
  | [], _ => none
  | (g, e) :: rest, x => if g x then some (e x) else evalBranches rest x

/-- Branches extracted from the source of `Linear.calculate_y`. -/
def Linear_branches (a b ymin ymax : K) : List ((K → Bool) × (K → K)) :=
  [ (fun x => decide (x ≤ a), fun _ => ymin),
    (fun x => decide (x ≥ b), fun _ => ymax),
    (fun x => decide (a < x ∧ x < b),
      fun x => ymin + ((ymax - ymin) / (b - a)) * (x - a)) ]

/-- Branches extracted from the source of `Triangle.calculate_y`. -/
def Triangle_branches (a m b ymin ymax : K) : List ((K → Bool) × (K → K)) :=
  [ (fun x => decide (x ≤ a ∨ x ≥ b), fun _ => ymin),
    (fun x => decide (a < x ∧ x < m),
      fun x => ymin + (ymax - ymin) / (m - a) * (x - a)),
    (fun x => decide (m ≤ x ∧ x < b),
      fun x => ymax - (ymax - ymin) / (b - m) * (x - m)) ]

/-- Branches extracted from the source of `Trapezoidal.calculate_y`. -/
def Trapezoidal_branches (a m1 m2 b ymin ymax : K) :
    List ((K → Bool) × (K → K)) :=
  [ (fun x => decide (x ≤ a ∨ x ≥ b), fun _ => ymin),
    (fun x => decide (m1 < x ∧ x < m2), fun _ => ymax),
    (fun x => decide (a < x ∧ x ≤ m1),
      fun x => ymin + ((ymax - ymin) / (m1 - a)) * (x - a)),
    (fun x => decide (m2 ≤ x ∧ x < b),
      fun x => ymax - ((ymax - ymin) / (b - m2)) * (x - m2)) ]

/-- Branches extracted from the source of `S.calculate_y`. -/
def S_branches (a b ymin ymax : K) : List ((K → Bool) × (K → K)) :=
  [ (fun x => decide (x ≤ a), fun _ => ymin),
    (fun x => decide (x > b), fun _ => ymax),
    (fun x => decide (a < x ∧ x ≤ (a + b) / 2),
      fun x => ymin + 2 * ((x - a) / (b - a)) ^ 2 * (ymax - ymin)),
    (fun x => decide ((a + b) / 2 < x ∧ x ≤ b),
      fun x => ymin + (1 - 2 * ((b - x) / (b - a)) ^ 2) * (ymax - ymin)) ]

/-- `Z.get_function_def` reuses the guards of `S` and wraps each return
expression as `y_max + y_min - <expression>`. -/
def Z_branches (a b ymin ymax : K) : List ((K → Bool) × (K → K)) :=
  (S_branches a b ymin ymax).map (fun p => (p.1, fun x => ymax + ymin - p.2 x))

/-- `Pi.get_function_def` nests the derived definition of `S(a, m)` under
the guard `x <= m` and that of `Z(m, b)` under `x > m`; numerically
evaluating it selects the half by the top-level guard, then the branch
within. -/
def Pi_derived_eval (a m b ymin ymax x : K) : Option K :=
  if x ≤ m then evalBranches (S_branches a m ymin ymax) x
  else evalBranches (Z_branches m b ymin ymax) x

/-! ## Helper lemmas: totality of the evaluators

The guards of every `calculate_y` if-chain cover the whole line, whatever
the parameters, so the implicit `return None` fall-through is unreachable. -/

theorem Linear_total (a b ymin ymax x : K) :
    ∃ y, Linear_calculate_y a b ymin ymax x = some y := by
  unfold Linear_calculate_y
  split_ifs with h1 h2 h3
  · exact ⟨ymin, rfl⟩
  · exact ⟨ymax, rfl⟩
  · exact ⟨_, rfl⟩
  · exact absurd ⟨lt_of_not_le h1, lt_of_not_le h2⟩ h3

theorem Triangle_total (a m b ymin ymax x : K) :
    ∃ y, Triangle_calculate_y a m b ymin ymax x = some y := by
  unfold Triangle_calculate_y
  split_ifs with h1 h2 h3
  · exact ⟨ymin, rfl⟩
  · exact ⟨_, rfl⟩
  · exact ⟨_, rfl⟩
  · push_neg at h1 h2 h3
    exact absurd (h3 (h2 h1.1)) (not_le.mpr h1.2)

theorem Trapezoidal_total (a m1 m2 b ymin ymax x : K) :
    ∃ y, Trapezoidal_calculate_y a m1 m2 b ymin ymax x = some y := by
  unfold Trapezoidal_calculate_y
  split_ifs with h1 h2 h3 h4
  · exact ⟨ymin, rfl⟩
  · exact ⟨ymax, rfl⟩
  · exact ⟨_, rfl⟩
  · exact ⟨_, rfl⟩
  · push_neg at h1 h2 h3 h4
    exact absurd (h4 (h2 (h3 h1.1))) (not_le.mpr h1.2)

theorem S_total (a b ymin ymax x : K) :
    ∃ y, S_calculate_y a b ymin ymax x = some y := by
  unfold S_calculate_y
  split_ifs with h1 h2 h3 h4
  · exact ⟨ymin, rfl⟩
  · exact ⟨ymax, rfl⟩
  · exact ⟨_, rfl⟩
  · exact ⟨_, rfl⟩
  · push_neg at h1 h2 h3 h4
    exact absurd h2 (not_le.mpr (h4 (h3 h1)))

theorem Z_total (a b ymin ymax x : K) :
    ∃ y, Z_calculate_y a b ymin ymax x = some y := by
  obtain ⟨s, hs⟩ := S_total a b ymin ymax x
  exact ⟨ymax + ymin - s, by rw [Z_calculate_y, hs, Option.map_some']⟩

theorem Pi_total (a m b ymin ymax x : K) :
    ∃ y, Pi_calculate_y a m b ymin ymax x = some y := by
  unfold Pi_calculate_y
  split_ifs
  · exact S_total a m ymin ymax x
  · exact Z_total m b ymin ymax x

/-! ## Construction validates only the y-range -/

theorem mkMembershipFunction_ne_none_iff (a b ymin ymax : K) :
    mkMembershipFunction a b ymin ymax ≠ none ↔
      (0 ≤ ymin ∧ ymin < 1 ∧ 0 < ymax ∧ ymax ≤ 1) := by
  unfold mkMembershipFunction
  split_ifs with h1 h2
  · simp only [ne_eq, not_true_eq_false, false_iff, not_and]
    intro h01 h11
    rcases h1 with h | h
    · exact absurd h (not_lt.mpr h01)
    · exact absurd h (not_le.mpr h11)
  · simp only [ne_eq, not_true_eq_false, false_iff, not_and]
    intro _ _ h0 h1'
    rcases h2 with h | h
    · exact absurd h (not_lt.mpr h1')
    · exact absurd h (not_le.mpr h0)
  · push_neg at h1 h2
    simp only [ne_eq, reduceCtorEq, not_false_eq_true, true_iff]
    exact ⟨h1.1, h1.2, h2.2, h2.1⟩

/-- Claim C1 (counterexample): `Triangle(a=5, m=3, b=1)` violates the
ordering invariant `a < m < b`, yet construction succeeds — no
`InvalidShapeError` is ever raised. -/
theorem triangle_bad_ordering_constructs :
    ¬((5:ℚ) < 3 ∧ (3:ℚ) < 1) ∧ mkTriangle (5:ℚ) 3 1 0 1 ≠ none := by
  constructor
  · norm_num
  · have h : mkTriangle (5:ℚ) 3 1 0 1 = some (⟨5, 1, 0, 1⟩, 3) := by
      norm_num [mkTriangle, mkMembershipFunction, Option.map]
    rw [h]
    exact Option.some_ne_none _

/-- Claim C1 (amended): construction of every shape checks only the
`y_min`/`y_max` range invariants; the breakpoint ordering invariant of the
variant is not validated, so construction succeeds exactly when the range
invariants hold, whatever the ordering of the breakpoints. -/
theorem construction_validates_only_range (a m m1 m2 b ymin ymax : K) :
    (mkLinear a b ymin ymax ≠ none ↔
      (0 ≤ ymin ∧ ymin < 1 ∧ 0 < ymax ∧ ymax ≤ 1)) ∧
    (mkTriangle a m b ymin ymax ≠ none ↔
      (0 ≤ ymin ∧ ymin < 1 ∧ 0 < ymax ∧ ymax ≤ 1)) ∧
    (mkTrapezoidal a m1 m2 b ymin ymax ≠ none ↔
      (0 ≤ ymin ∧ ymin < 1 ∧ 0 < ymax ∧ ymax ≤ 1)) ∧
    (mkS a b ymin ymax ≠ none ↔
      (0 ≤ ymin ∧ ymin < 1 ∧ 0 < ymax ∧ ymax ≤ 1)) ∧
    (mkZ a b ymin ymax ≠ none ↔
      (0 ≤ ymin ∧ ymin < 1 ∧ 0 < ymax ∧ ymax ≤ 1)) ∧
    (mkPi a m b ymin ymax ≠ none ↔
      (0 ≤ ymin ∧ ymin < 1 ∧ 0 < ymax ∧ ymax ≤ 1)) := by
  have hmap : ∀ m' : K, (mkMembershipFunction a b ymin ymax).map
      (fun st => (st, m')) ≠ none ↔ mkMembershipFunction a b ymin ymax ≠ none := by
    intro m'
    cases mkMembershipFunction a b ymin ymax <;> simp [Option.map]
  have hmap2 : (mkMembershipFunction a b ymin ymax).map
      (fun st => (st, m1, m2)) ≠ none ↔ mkMembershipFunction a b ymin ymax ≠ none := by
    cases mkMembershipFunction a b ymin ymax <;> simp [Option.map]
  refine ⟨mkMembershipFunction_ne_none_iff a b ymin ymax,
    (hmap m).trans (mkMembershipFunction_ne_none_iff a b ymin ymax),
    hmap2.trans (mkMembershipFunction_ne_none_iff a b ymin ymax),
    mkMembershipFunction_ne_none_iff a b ymin ymax,
    mkMembershipFunction_ne_none_iff a b ymin ymax,
    (hmap m).trans (mkMembershipFunction_ne_none_iff a b ymin ymax)⟩

/-- Claim C2: for every valid parameterization and every `x`, the values of
`S` and `Z` over the same parameters sum to `y_min + y_max` (`Z` is the
point reflection of `S` about `(y_min + y_max) / 2`). -/
theorem S_plus_Z_is_constant (a b ymin ymax x : K) (hab : a < b)
    (h0 : 0 ≤ ymin) (h1 : ymin < 1) (h2 : 0 < ymax) (h3 : ymax ≤ 1) :
    ∀ ys yz, S_calculate_y a b ymin ymax x = some ys →
      Z_calculate_y a b ymin ymax x = some yz → ys + yz = ymin + ymax := by
  intro ys yz hs hz
  unfold Z_calculate_y at hz
  rw [hs, Option.map_some'] at hz
  obtain rfl := Option.some.inj hz
  ring

/-- Claim C2 witness at `S(0, 1, 0, 1)` and `x = 1/2`. -/
theorem S_plus_Z_is_constant_witness : (1:ℚ)/2 + (1/2 : ℚ) = 0 + 1 :=
  S_plus_Z_is_constant (0:ℚ) 1 0 1 (1/2) (by norm_num) (by norm_num)
    (by norm_num) (by norm_num) (by norm_num) (1/2) (1/2)
    (by norm_num [S_calculate_y]) (by norm_num [Z_calculate_y, S_calculate_y])

/-- Claim C3: for a validly constructed `Pi(a, m, b)`, `calculate_y`
coincides with `S(a, m).calculate_y` for `x ≤ m` and with
`Z(m, b).calculate_y` for `x > m`. -/
theorem Pi_decomposes_into_S_and_Z (a m b ymin ymax x : K)
    (ham : a < m) (hmb : m < b)
    (h0 : 0 ≤ ymin) (h1 : ymin < 1) (h2 : 0 < ymax) (h3 : ymax ≤ 1) :
    (x ≤ m → Pi_calculate_y a m b ymin ymax x = S_calculate_y a m ymin ymax x) ∧
    (m < x → Pi_calculate_y a m b ymin ymax x = Z_calculate_y m b ymin ymax x) := by
  constructor
  · intro h
    unfold Pi_calculate_y
    rw [if_pos h]
  · intro h
    unfold Pi_calculate_y
    rw [if_neg (not_le.mpr h)]

/-- Claim C3 witness at `Pi(0, 1, 2)` and `x = 1/2`. -/
theorem Pi_decomposes_into_S_and_Z_witness :
    Pi_calculate_y (0:ℚ) 1 2 0 1 (1/2) = S_calculate_y (0:ℚ) 1 0 1 (1/2) :=
  (Pi_decomposes_into_S_and_Z (0:ℚ) 1 2 0 1 (1/2) (by norm_num) (by norm_num)
    (by norm_num) (by norm_num) (by norm_num) (by norm_num)).1 (by norm_num)

/-- Claim C8: a rejected mutation of `y_min` or `y_max` raises before the
field assignment, so the instance state is unchanged. -/
theorem rejected_mutation_preserves_state (st : MFState K) (v w : K)
    (hv : v < 0 ∨ v ≥ 1) (hw : w > 1 ∨ w ≤ 0) :
    (setYmin st v).1 = none ∧ (setYmin st v).2 = st ∧
    (setYmax st w).1 = none ∧ (setYmax st w).2 = st := by
  unfold setYmin setYmax
  rw [if_pos hv, if_pos hw]
  exact ⟨rfl, rfl, rfl, rfl⟩

/-- Claim C8 witness: setting `y_min` or `y_max` to `2` on the state
`⟨0, 1, 0, 1⟩` fails and leaves the state untouched. -/
theorem rejected_mutation_preserves_state_witness :
    (setYmin (⟨0, 1, 0, 1⟩ : MFState ℚ) 2).2 = ⟨0, 1, 0, 1⟩ ∧
    (setYmax (⟨0, 1, 0, 1⟩ : MFState ℚ) 2).2 = ⟨0, 1, 0, 1⟩ :=
  ⟨(rejected_mutation_preserves_state (⟨0, 1, 0, 1⟩ : MFState ℚ) 2 2
      (Or.inr (by norm_num)) (Or.inl (by norm_num))).2.1,
   (rejected_mutation_preserves_state (⟨0, 1, 0, 1⟩ : MFState ℚ) 2 2
      (Or.inr (by norm_num)) (Or.inl (by norm_num))).2.2.2⟩

/-- Claim C10: for a validly constructed `Pi(a, m, b)`, the peak value
`y_max` is attained at the split point `m`. -/
theorem Pi_peak_at_m (a m b ymin ymax : K) (ham : a < m) (hmb : m < b)
    (h0 : 0 ≤ ymin) (h1 : ymin < 1) (h2 : 0 < ymax) (h3 : ymax ≤ 1) :
    Pi_calculate_y a m b ymin ymax m = some ymax := by
  unfold Pi_calculate_y
  rw [if_pos (le_refl m)]
  unfold S_calculate_y
  rw [if_neg (not_le.mpr ham), if_neg (lt_irrefl m),
    if_neg (by rintro ⟨-, h⟩; linarith), if_pos ⟨by linarith, le_refl m⟩]
  congr 1
  rw [sub_self, zero_div]
  ring

/-- Claim C10 witness at `Pi(0, 1, 2)`. -/
theorem Pi_peak_at_m_witness : Pi_calculate_y (0:ℚ) 1 2 0 1 1 = some 1 :=
  Pi_peak_at_m (0:ℚ) 1 2 0 1 (by norm_num) (by norm_num) (by norm_num)
    (by norm_num) (by norm_num) (by norm_num)

/-- Claim C4 (counterexample): for `Z(0, 1)` with `y_min = 0`, `y_max = 1`,
`calculate_y` at the lower breakpoint `a = 0` returns `1 = y_max`, not
`y_min`. -/
theorem Z_at_lower_breakpoint_ne_ymin :
    Z_calculate_y (0:ℚ) 1 0 1 0 = some 1 ∧ (1:ℚ) ≠ 0 := by
  constructor
  · norm_num [Z_calculate_y, S_calculate_y]
  · norm_num

/-- Claim C4 (amended): for every validly constructed shape, `calculate_y`
at the lower breakpoint `a` returns `y_min` for Linear, Triangle,
Trapezoidal, S and Pi, while `Z` returns `y_max` there (`Z` is the falling
reflection of `S`). -/
theorem calculate_y_at_lower_breakpoint (a m m1 m2 b ymin ymax : K)
    (hab : a < b) (ham : a < m) (hmb : m < b)
    (ham1 : a < m1) (hm12 : m1 ≤ m2) (hm2b : m2 < b) :
    Linear_calculate_y a b ymin ymax a = some ymin ∧
    Triangle_calculate_y a m b ymin ymax a = some ymin ∧
    Trapezoidal_calculate_y a m1 m2 b ymin ymax a = some ymin ∧
    S_calculate_y a b ymin ymax a = some ymin ∧
    Pi_calculate_y a m b ymin ymax a = some ymin ∧
    Z_calculate_y a b ymin ymax a = some ymax := by
  refine ⟨?_, ?_, ?_, ?_, ?_, ?_⟩
  · unfold Linear_calculate_y
    rw [if_pos (le_refl a)]
  · unfold Triangle_calculate_y
    rw [if_pos (Or.inl (le_refl a))]
  · unfold Trapezoidal_calculate_y
    rw [if_pos (Or.inl (le_refl a))]
  · unfold S_calculate_y
    rw [if_pos (le_refl a)]
  · unfold Pi_calculate_y S_calculate_y
    rw [if_pos ham.le, if_pos (le_refl a)]
  · unfold Z_calculate_y S_calculate_y
    rw [if_pos (le_refl a), Option.map_some']
    congr 1
    ring

/-- Claim C4 witness at `a = 0`, `m = 1`, `m1 = 1`, `m2 = 3/2`, `b = 2`,
`y_min = 0`, `y_max = 1`. -/
theorem calculate_y_at_lower_breakpoint_witness :
    Linear_calculate_y (0:ℚ) 2 0 1 0 = some 0 ∧
    Triangle_calculate_y (0:ℚ) 1 2 0 1 0 = some 0 ∧
    Trapezoidal_calculate_y (0:ℚ) 1 (3/2) 2 0 1 0 = some 0 ∧
    S_calculate_y (0:ℚ) 2 0 1 0 = some 0 ∧
    Pi_calculate_y (0:ℚ) 1 2 0 1 0 = some 0 ∧
    Z_calculate_y (0:ℚ) 2 0 1 0 = some 1 :=
  calculate_y_at_lower_breakpoint (0:ℚ) 1 1 (3/2) 2 0 1 (by norm_num)
    (by norm_num) (by norm_num) (by norm_num) (by norm_num) (by norm_num)

/-- Claim C6: `y_min` assignment fails exactly when the value is `< 0` or
`≥ 1`, and `y_max` assignment fails exactly when the value is `> 1` or
`≤ 0` — both through the setters and at construction (given the other
range parameter valid); in particular construction with `y_min = 1`,
`y_min = -0.1`, `y_max = 0` or `y_max = 1.1` is rejected. -/
theorem y_range_validation_exact (st : MFState K) (a b v w ymin ymax : K)
    (hmin : 0 ≤ ymin ∧ ymin < 1) (hmax : 0 < ymax ∧ ymax ≤ 1) :
    ((setYmin st v).1 = none ↔ (v < 0 ∨ v ≥ 1)) ∧
    ((setYmax st w).1 = none ↔ (w > 1 ∨ w ≤ 0)) ∧
    (mkMembershipFunction a b v ymax = none ↔ (v < 0 ∨ v ≥ 1)) ∧
    (mkMembershipFunction a b ymin w = none ↔ (w > 1 ∨ w ≤ 0)) ∧
    mkMembershipFunction a b 1 ymax = none ∧
    mkMembershipFunction a b (-(1/10)) ymax = none ∧
    mkMembershipFunction a b ymin 0 = none ∧
    mkMembershipFunction a b ymin (11/10) = none := by
  refine ⟨?_, ?_, ?_, ?_, ?_, ?_, ?_, ?_⟩
  · unfold setYmin
    split_ifs with h
    · exact iff_of_true rfl h
    · exact iff_of_false (by simp) h
  · unfold setYmax
    split_ifs with h
    · exact iff_of_true rfl h
    · exact iff_of_false (by simp) h
  · unfold mkMembershipFunction
    split_ifs with h1 h2
    · exact iff_of_true rfl h1
    · rcases h2 with h | h
      · exact absurd h (not_lt.mpr hmax.2)
      · exact absurd h (not_le.mpr hmax.1)
    · exact iff_of_false (by simp) h1
  · unfold mkMembershipFunction
    split_ifs with h1 h2
    · rcases h1 with h | h
      · exact absurd h (not_lt.mpr hmin.1)
      · exact absurd h (not_le.mpr hmin.2)
    · exact iff_of_true rfl h2
    · exact iff_of_false (by simp) h2
  · unfold mkMembershipFunction
    rw [if_pos (Or.inr (le_refl 1))]
  · unfold mkMembershipFunction
    rw [if_pos (Or.inl (by norm_num))]
  · unfold mkMembershipFunction
    split_ifs with h1 h2
    · rfl
    · rfl
    · exact absurd (Or.inr (le_refl 0)) h2
  · unfold mkMembershipFunction
    split_ifs with h1 h2
    · rfl
    · rfl
    · exact absurd (Or.inl (by norm_num)) h2

/-- Claim C6 witness: setting `y_min := 2` on the state `⟨0, 1, 0, 1⟩`
fails. -/
theorem y_range_validation_exact_witness :
    (setYmin (⟨0, 1, 0, 1⟩ : MFState ℚ) 2).1 = none :=
  (y_range_validation_exact (⟨0, 1, 0, 1⟩ : MFState ℚ) 0 1 2 (1/2) 0 1
    ⟨by norm_num, by norm_num⟩ ⟨by norm_num, by norm_num⟩).1.mpr
    (Or.inr (by norm_num))

/-- Claim C7: for every shape whose parameters satisfy its ordering
invariant, `calculate_y` is total on the line — every `x` lands in some
guard and produces a defined value (the implicit fall-through is
unreachable). -/
theorem calculate_y_total_on_reals (a m m1 m2 b ymin ymax x : K)
    (hab : a < b) (ham : a < m) (hmb : m < b)
    (ham1 : a < m1) (hm12 : m1 ≤ m2) (hm2b : m2 < b) :
    (∃ y, Linear_calculate_y a b ymin ymax x = some y) ∧
    (∃ y, Triangle_calculate_y a m b ymin ymax x = some y) ∧
    (∃ y, Trapezoidal_calculate_y a m1 m2 b ymin ymax x = some y) ∧
    (∃ y, S_calculate_y a b ymin ymax x = some y) ∧
    (∃ y, Z_calculate_y a b ymin ymax x = some y) ∧
    (∃ y, Pi_calculate_y a m b ymin ymax x = some y) :=
  ⟨Linear_total a b ymin ymax x, Triangle_total a m b ymin ymax x,
   Trapezoidal_total a m1 m2 b ymin ymax x, S_total a b ymin ymax x,
   Z_total a b ymin ymax x, Pi_total a m b ymin ymax x⟩

/-- Claim C7 witness at concrete parameters and `x = 7` (outside `[a, b]`). -/
theorem calculate_y_total_on_reals_witness :
    (∃ y, Linear_calculate_y (0:ℚ) 2 0 1 7 = some y) ∧
    (∃ y, Triangle_calculate_y (0:ℚ) 1 2 0 1 7 = some y) ∧
    (∃ y, Trapezoidal_calculate_y (0:ℚ) 1 (3/2) 2 0 1 7 = some y) ∧
    (∃ y, S_calculate_y (0:ℚ) 2 0 1 7 = some y) ∧
    (∃ y, Z_calculate_y (0:ℚ) 2 0 1 7 = some y) ∧
    (∃ y, Pi_calculate_y (0:ℚ) 1 2 0 1 7 = some y) :=
  calculate_y_total_on_reals (0:ℚ) 1 1 (3/2) 2 0 1 7 (by norm_num)
    (by norm_num) (by norm_num) (by norm_num) (by norm_num) (by norm_num)

/-! ## Helper lemmas: the derived branch lists agree with the evaluators -/

theorem Linear_branches_eval (a b ymin ymax x : K) :
    evalBranches (Linear_branches a b ymin ymax) x =
      Linear_calculate_y a b ymin ymax x := by
  simp only [Linear_branches, evalBranches, Linear_calculate_y,
    decide_eq_true_eq]

theorem Triangle_branches_eval (a m b ymin ymax x : K) :
    evalBranches (Triangle_branches a m b ymin ymax) x =
      Triangle_calculate_y a m b ymin ymax x := by
  simp only [Triangle_branches, evalBranches, Triangle_calculate_y,
    decide_eq_true_eq]

theorem Trapezoidal_branches_eval (a m1 m2 b ymin ymax x : K) :
    evalBranches (Trapezoidal_branches a m1 m2 b ymin ymax) x =
      Trapezoidal_calculate_y a m1 m2 b ymin ymax x := by
  simp only [Trapezoidal_branches, evalBranches, Trapezoidal_calculate_y,
    decide_eq_true_eq]

theorem S_branches_eval (a b ymin ymax x : K) :
    evalBranches (S_branches a b ymin ymax) x =
      S_calculate_y a b ymin ymax x := by
  simp only [S_branches, evalBranches, S_calculate_y, decide_eq_true_eq]

theorem Z_branches_eval (a b ymin ymax x : K) :
    evalBranches (Z_branches a b ymin ymax) x =
      Z_calculate_y a b ymin ymax x := by
  simp only [Z_branches, S_branches, List.map, evalBranches,
    Z_calculate_y, S_calculate_y, decide_eq_true_eq]
  split_ifs <;> simp [Option.map]

theorem Pi_derived_eval_eq (a m b ymin ymax x : K) :
    Pi_derived_eval a m b ymin ymax x = Pi_calculate_y a m b ymin ymax x := by
  unfold Pi_derived_eval Pi_calculate_y
  split_ifs
  · exact S_branches_eval a m ymin ymax x
  · exact Z_branches_eval m b ymin ymax x

/-- Claim C9: for every validly constructed instance, evaluating the
derived piecewise formula (the substituted branch list, first matching
guard fires) at any `x` agrees with `calculate_y(x)`, for all six shapes. -/
theorem derived_formula_matches_calculate_y (a m m1 m2 b ymin ymax x : K)
    (hab : a < b) (ham : a < m) (hmb : m < b)
    (ham1 : a < m1) (hm12 : m1 ≤ m2) (hm2b : m2 < b)
    (h0 : 0 ≤ ymin) (h1 : ymin < 1) (h2 : 0 < ymax) (h3 : ymax ≤ 1) :
    evalBranches (Linear_branches a b ymin ymax) x =
      Linear_calculate_y a b ymin ymax x ∧
    evalBranches (Triangle_branches a m b ymin ymax) x =
      Triangle_calculate_y a m b ymin ymax x ∧
    evalBranches (Trapezoidal_branches a m1 m2 b ymin ymax) x =
      Trapezoidal_calculate_y a m1 m2 b ymin ymax x ∧
    evalBranches (S_branches a b ymin ymax) x =
      S_calculate_y a b ymin ymax x ∧
    evalBranches (Z_branches a b ymin ymax) x =
      Z_calculate_y a b ymin ymax x ∧
    Pi_derived_eval a m b ymin ymax x = Pi_calculate_y a m b ymin ymax x :=
  ⟨Linear_branches_eval a b ymin ymax x,
   Triangle_branches_eval a m b ymin ymax x,
   Trapezoidal_branches_eval a m1 m2 b ymin ymax x,
   S_branches_eval a b ymin ymax x,
   Z_branches_eval a b ymin ymax x,
   Pi_derived_eval_eq a m b ymin ymax x⟩

/-- Claim C9 witness at concrete parameters and `x = 1/2`. -/
theorem derived_formula_matches_calculate_y_witness :
    evalBranches (Linear_branches (0:ℚ) 2 0 1) (1/2) =
      Linear_calculate_y (0:ℚ) 2 0 1 (1/2) ∧
    evalBranches (Triangle_branches (0:ℚ) 1 2 0 1) (1/2) =
      Triangle_calculate_y (0:ℚ) 1 2 0 1 (1/2) ∧
    evalBranches (Trapezoidal_branches (0:ℚ) 1 (3/2) 2 0 1) (1/2) =
      Trapezoidal_calculate_y (0:ℚ) 1 (3/2) 2 0 1 (1/2) ∧
    evalBranches (S_branches (0:ℚ) 2 0 1) (1/2) =
      S_calculate_y (0:ℚ) 2 0 1 (1/2) ∧
    evalBranches (Z_branches (0:ℚ) 2 0 1) (1/2) =
      Z_calculate_y (0:ℚ) 2 0 1 (1/2) ∧
    Pi_derived_eval (0:ℚ) 1 2 0 1 (1/2) = Pi_calculate_y (0:ℚ) 1 2 0 1 (1/2) :=
  derived_formula_matches_calculate_y (0:ℚ) 1 1 (3/2) 2 0 1 (1/2)
    (by norm_num) (by norm_num) (by norm_num) (by norm_num) (by norm_num)
    (by norm_num) (by norm_num) (by norm_num) (by norm_num) (by norm_num)

/-! ## Helper lemmas: range containment per shape -/

theorem Linear_range (a b ymin ymax x : K) (hab : a < b) (hy : ymin ≤ ymax) :
    ∀ y, Linear_calculate_y a b ymin ymax x = some y →
      ymin ≤ y ∧ y ≤ ymax := by
  intro y hsome
  unfold Linear_calculate_y at hsome
  split_ifs at hsome with h1 h2 h3
  · obtain rfl := Option.some.inj hsome
    exact ⟨le_refl _, hy⟩
  · obtain rfl := Option.some.inj hsome
    exact ⟨hy, le_refl _⟩
  · obtain rfl := Option.some.inj hsome
    have hba : (0:K) < b - a := by linarith
    have hcoef : (0:K) ≤ (ymax - ymin) / (b - a) :=
      div_nonneg (by linarith) hba.le
    constructor
    · have := mul_nonneg hcoef (by linarith [h3.1] : (0:K) ≤ x - a)
      linarith
    · have hstep : ((ymax - ymin) / (b - a)) * (x - a) ≤
          ((ymax - ymin) / (b - a)) * (b - a) :=
        mul_le_mul_of_nonneg_left (by linarith [h3.2]) hcoef
      rw [div_mul_cancel₀ _ hba.ne'] at hstep
      linarith

theorem Triangle_range (a m b ymin ymax x : K) (ham : a < m) (hmb : m < b)
    (hy : ymin ≤ ymax) :
    ∀ y, Triangle_calculate_y a m b ymin ymax x = some y →
      ymin ≤ y ∧ y ≤ ymax := by
  intro y hsome
  unfold Triangle_calculate_y at hsome
  split_ifs at hsome with h1 h2 h3
  · obtain rfl := Option.some.inj hsome
    exact ⟨le_refl _, hy⟩
  · obtain rfl := Option.some.inj hsome
    have hma : (0:K) < m - a := by linarith
    have hcoef : (0:K) ≤ (ymax - ymin) / (m - a) :=
      div_nonneg (by linarith) hma.le
    constructor
    · have := mul_nonneg hcoef (by linarith [h2.1] : (0:K) ≤ x - a)
      linarith
    · have hstep : (ymax - ymin) / (m - a) * (x - a) ≤
          (ymax - ymin) / (m - a) * (m - a) :=
        mul_le_mul_of_nonneg_left (by linarith [h2.2]) hcoef
      rw [div_mul_cancel₀ _ hma.ne'] at hstep
      linarith
  · obtain rfl := Option.some.inj hsome
    have hbm : (0:K) < b - m := by linarith
    have hcoef : (0:K) ≤ (ymax - ymin) / (b - m) :=
      div_nonneg (by linarith) hbm.le
    constructor
    · have hstep : (ymax - ymin) / (b - m) * (x - m) ≤
          (ymax - ymin) / (b - m) * (b - m) :=
        mul_le_mul_of_nonneg_left (by linarith [h3.2]) hcoef
      rw [div_mul_cancel₀ _ hbm.ne'] at hstep
      linarith
    · have := mul_nonneg hcoef (by linarith [h3.1] : (0:K) ≤ x - m)
      linarith

theorem Trapezoidal_range (a m1 m2 b ymin ymax x : K)
    (ham1 : a < m1) (hm2b : m2 < b) (hy : ymin ≤ ymax) :
    ∀ y, Trapezoidal_calculate_y a m1 m2 b ymin ymax x = some y →
      ymin ≤ y ∧ y ≤ ymax := by
  intro y hsome
  unfold Trapezoidal_calculate_y at hsome
  split_ifs at hsome with h1 h2 h3 h4
  · obtain rfl := Option.some.inj hsome
    exact ⟨le_refl _, hy⟩
  · obtain rfl := Option.some.inj hsome
    exact ⟨hy, le_refl _⟩
  · obtain rfl := Option.some.inj hsome
    have hma : (0:K) < m1 - a := by linarith
    have hcoef : (0:K) ≤ (ymax - ymin) / (m1 - a) :=
      div_nonneg (by linarith) hma.le
    constructor
    · have := mul_nonneg hcoef (by linarith [h3.1] : (0:K) ≤ x - a)
      linarith
    · have hstep : ((ymax - ymin) / (m1 - a)) * (x - a) ≤
          ((ymax - ymin) / (m1 - a)) * (m1 - a) :=
        mul_le_mul_of_nonneg_left (by linarith [h3.2]) hcoef
      rw [div_mul_cancel₀ _ hma.ne'] at hstep
      linarith
  · obtain rfl := Option.some.inj hsome
    have hbm : (0:K) < b - m2 := by linarith
    have hcoef : (0:K) ≤ (ymax - ymin) / (b - m2) :=
      div_nonneg (by linarith) hbm.le
    constructor
    · have hstep : ((ymax - ymin) / (b - m2)) * (x - m2) ≤
          ((ymax - ymin) / (b - m2)) * (b - m2) :=
        mul_le_mul_of_nonneg_left (by linarith [h4.2]) hcoef
      rw [div_mul_cancel₀ _ hbm.ne'] at hstep
      linarith
    · have := mul_nonneg hcoef (by linarith [h4.1] : (0:K) ≤ x - m2)
      linarith

theorem S_range (a b ymin ymax x : K) (hab : a < b) (hy : ymin ≤ ymax) :
    ∀ y, S_calculate_y a b ymin ymax x = some y → ymin ≤ y ∧ y ≤ ymax := by
  intro y hsome
  unfold S_calculate_y at hsome
  split_ifs at hsome with h1 h2 h3 h4
  · obtain rfl := Option.some.inj hsome
    exact ⟨le_refl _, hy⟩
  · obtain rfl := Option.some.inj hsome
    exact ⟨hy, le_refl _⟩
  · obtain rfl := Option.some.inj hsome
    have hba : (0:K) < b - a := by linarith
    have ht0 : (0:K) ≤ (x - a) / (b - a) :=
      div_nonneg (by linarith [h3.1]) hba.le
    have ht : (x - a) / (b - a) ≤ 1 / 2 := by
      rw [div_le_div_iff₀ hba (by norm_num : (0:K) < 2)]
      linarith [h3.2]
    constructor
    · have := mul_nonneg
        (by positivity : (0:K) ≤ 2 * ((x - a) / (b - a)) ^ 2)
        (by linarith : (0:K) ≤ ymax - ymin)
      linarith
    · have hts : 2 * ((x - a) / (b - a)) ^ 2 ≤ 1 := by nlinarith [ht, ht0]
      have hprod : (0:K) ≤
          (1 - 2 * ((x - a) / (b - a)) ^ 2) * (ymax - ymin) :=
        mul_nonneg (by linarith) (by linarith)
      linarith [hprod]
  · obtain rfl := Option.some.inj hsome
    have hba : (0:K) < b - a := by linarith
    have hs0 : (0:K) ≤ (b - x) / (b - a) :=
      div_nonneg (by linarith [h4.2]) hba.le
    have hs : (b - x) / (b - a) ≤ 1 / 2 := by
      rw [div_le_div_iff₀ hba (by norm_num : (0:K) < 2)]
      linarith [h4.1]
    constructor
    · have hts : 2 * ((b - x) / (b - a)) ^ 2 ≤ 1 := by nlinarith [hs, hs0]
      have hprod : (0:K) ≤
          (1 - 2 * ((b - x) / (b - a)) ^ 2) * (ymax - ymin) :=
        mul_nonneg (by linarith) (by linarith)
      linarith [hprod]
    · have hprod := mul_nonneg
        (by positivity : (0:K) ≤ 2 * ((b - x) / (b - a)) ^ 2)
        (by linarith : (0:K) ≤ ymax - ymin)
      linarith [hprod]

theorem Z_range (a b ymin ymax x : K) (hab : a < b) (hy : ymin ≤ ymax) :
    ∀ y, Z_calculate_y a b ymin ymax x = some y → ymin ≤ y ∧ y ≤ ymax := by
  intro y hsome
  unfold Z_calculate_y at hsome
  obtain ⟨s, hs⟩ := S_total a b ymin ymax x
  rw [hs, Option.map_some'] at hsome
  obtain rfl := Option.some.inj hsome
  obtain ⟨hl, hu⟩ := S_range a b ymin ymax x hab hy s hs
  exact ⟨by linarith, by linarith⟩

theorem Pi_range (a m b ymin ymax x : K) (ham : a < m) (hmb : m < b)
    (hy : ymin ≤ ymax) :
    ∀ y, Pi_calculate_y a m b ymin ymax x = some y → ymin ≤ y ∧ y ≤ ymax := by
  intro y hsome
  unfold Pi_calculate_y at hsome
  split_ifs at hsome
  · exact S_range a m ymin ymax x ham hy y hsome
  · exact Z_range m b ymin ymax x hmb hy y hsome

/-- Claim C5: for every shape with valid ordering and `y_min < y_max`
within their legal intervals, every value `calculate_y` produces lies in
`[y_min, y_max]`. -/
theorem calculate_y_range_containment (a m m1 m2 b ymin ymax x : K)
    (hab : a < b) (ham : a < m) (hmb : m < b)
    (ham1 : a < m1) (hm12 : m1 ≤ m2) (hm2b : m2 < b)
    (h0 : 0 ≤ ymin) (h1 : ymin < 1) (h2 : 0 < ymax) (h3 : ymax ≤ 1)
    (hyy : ymin < ymax) :
    (∀ y, Linear_calculate_y a b ymin ymax x = some y →
      ymin ≤ y ∧ y ≤ ymax) ∧
    (∀ y, Triangle_calculate_y a m b ymin ymax x = some y →
      ymin ≤ y ∧ y ≤ ymax) ∧
    (∀ y, Trapezoidal_calculate_y a m1 m2 b ymin ymax x = some y →
      ymin ≤ y ∧ y ≤ ymax) ∧
    (∀ y, S_calculate_y a b ymin ymax x = some y → ymin ≤ y ∧ y ≤ ymax) ∧
    (∀ y, Z_calculate_y a b ymin ymax x = some y → ymin ≤ y ∧ y ≤ ymax) ∧
    (∀ y, Pi_calculate_y a m b ymin ymax x = some y → ymin ≤ y ∧ y ≤ ymax) :=
  ⟨Linear_range a b ymin ymax x hab hyy.le,
   Triangle_range a m b ymin ymax x ham hmb hyy.le,
   Trapezoidal_range a m1 m2 b ymin ymax x ham1 hm2b hyy.le,
   S_range a b ymin ymax x hab hyy.le,
   Z_range a b ymin ymax x hab hyy.le,
   Pi_range a m b ymin ymax x ham hmb hyy.le⟩

/-- Claim C5 witness: `Linear(0, 2)` at `x = 1/2` yields `1/4`, which lies
in `[0, 1]`. -/
theorem calculate_y_range_containment_witness :
    (0:ℚ) ≤ 1/4 ∧ (1/4:ℚ) ≤ 1 :=
  (calculate_y_range_containment (0:ℚ) 1 1 (3/2) 2 0 1 (1/2) (by norm_num)
    (by norm_num) (by norm_num) (by norm_num) (by norm_num) (by norm_num)
    (by norm_num) (by norm_num) (by norm_num) (by norm_num) (by norm_num)).1
    (1/4) (by norm_num [Linear_calculate_y])

end MembershipFunctions
